import Mathlib

/-!
Shallow embedding of `pcsx2/GS/Renderers/OpenGL/GLContextEGLWayland.cpp`.

The provider (`GLContextEGLWayland`) owns a dynamically loaded shim library
handle, three function pointers resolved from it, a shim window handle, and
(from its base class `GLContextEGL`) a display handle, a surfaceless flag and
the window info. Opaque C handles and function pointers are modelled as
`Option Nat` (`none` is a C++ null pointer). Every call into an external
facility (dlopen/dlsym/dlclose, the shim library functions, the EGL entry
points, the console and the `Error` sink) is recorded as an event in an output
trace, and the values those external calls return are supplied by an
environment record `WLEnv`, so each operation of the source file becomes a
pure function `WLEnv → WLState → result × WLState × List WLEvent`.
-/

namespace GLWayland

/-- Observable calls into external facilities, in program order. -/
inductive WLEvent where
  | dlopenCall (name : String)
  | dlsymCall (name : String)
  | dlcloseCall (handle : Nat)
  | consoleError (msg : String)
  | consoleLog (msg : String)
  | setError (msg : String)
  | extensionQuery (name1 name2 : String)
  | displayAcquire (platform conn : Nat)
  | shimCreateCall (surface w h : Nat) (result : Option Nat)
  | shimDestroyCall (handle : Nat)
  | shimResizeCall (handle w h dx dy : Nat)
  | surfaceAcquire (shim : Nat)
  | baseResizeCall (w h : Nat)
  deriving DecidableEq, Repr

/-- The `WindowInfo` fields this file reads: `window_handle` (a `wl_surface*`),
`surface_width`, `surface_height` and `display_connection`. -/
structure WindowInfo where
  window_handle : Nat
  surface_width : Nat
  surface_height : Nat
  display_connection : Nat
  deriving DecidableEq, Repr

/-- Results the external world returns to the provider during one call
sequence: what `dlopen` and the three `dlsym` lookups yield, what
`wl_egl_window_create` returns for given arguments, what
`eglCreatePlatformWindowSurface` and `eglGetPlatformDisplay` return, the
`eglGetError` code, and whether either Wayland platform extension is
advertised. -/
structure WLEnv where
  dlopenResult : Option Nat
  symWindowCreate : Option Nat
  symWindowDestroy : Option Nat
  symWindowResize : Option Nat
  shimCreateResult : Nat → Nat → Nat → Option Nat
  eglSurfaceResult : Option Nat
  eglDisplayResult : Option Nat
  eglErrorCode : Nat
  hasWaylandExt : Bool

/-- The provider state: `m_wl_module`, the three resolved function pointers,
`m_wl_window`, and the base-class fields `m_display`, `m_supports_surfaceless`
and `m_wi` that this file touches. -/
structure WLState where
  m_wl_module : Option Nat
  m_wl_egl_window_create : Option Nat
  m_wl_egl_window_destroy : Option Nat
  m_wl_egl_window_resize : Option Nat
  m_wl_window : Option Nat
  m_display : Option Nat
  m_supports_surfaceless : Bool
  m_wi : WindowInfo
  deriving DecidableEq, Repr

/-- The constructor `GLContextEGLWayland(const WindowInfo&)`: all owned
handles and pointers start null, the window info is stored. -/
def initialState (wi : WindowInfo) : WLState where
  m_wl_module := none
  m_wl_egl_window_create := none
  m_wl_egl_window_destroy := none
  m_wl_egl_window_resize := none
  m_wl_window := none
  m_display := none
  m_supports_surfaceless := false
  m_wi := wi

/-- The constant `WAYLAND_EGL_MODNAME`. -/
def WAYLAND_EGL_MODNAME : String := "libwayland-egl.so.1"

/-- The constant `EGL_PLATFORM_WAYLAND_KHR` (0x31D8). -/
def EGL_PLATFORM_WAYLAND_KHR : Nat := 0x31D8

/-- Embeds `GLContextEGLWayland::LoadModule`: `dlopen` the shim library (storing the
handle even before checking it), fail with a console message if it is null;
otherwise resolve the three `wl_egl_window_*` symbols and fail with a console
message if any is null, leaving the module handle set. -/
def loadModule (env : WLEnv) (s : WLState) : Bool × WLState × List WLEvent :=
  let s1 : WLState := { s with m_wl_module := env.dlopenResult }
  match env.dlopenResult with
  | none =>
      (false, s1, [WLEvent.dlopenCall WAYLAND_EGL_MODNAME,
        WLEvent.consoleError ("Failed to load " ++ WAYLAND_EGL_MODNAME ++ ".")])
  | some _ =>
      let s2 : WLState := { s1 with
        m_wl_egl_window_create := env.symWindowCreate,
        m_wl_egl_window_destroy := env.symWindowDestroy,
        m_wl_egl_window_resize := env.symWindowResize }
      let t : List WLEvent := [WLEvent.dlopenCall WAYLAND_EGL_MODNAME,
        WLEvent.dlsymCall "wl_egl_window_create",
        WLEvent.dlsymCall "wl_egl_window_destroy",
        WLEvent.dlsymCall "wl_egl_window_resize"]
      if env.symWindowCreate.isNone || env.symWindowDestroy.isNone ||
          env.symWindowResize.isNone then
        (false, s2, t ++ [WLEvent.consoleError
          ("Failed to load one or more functions from " ++ WAYLAND_EGL_MODNAME ++ ".")])
      else
        (true, s2, t)

/-- Embeds `GLContextEGLWayland::~GLContextEGLWayland`: destroy the shim window if
present, then `dlclose` the module if present. -/
def destructor (s : WLState) : List WLEvent :=
  (match s.m_wl_window with
    | some w => [WLEvent.shimDestroyCall w]
    | none => []) ++
  (match s.m_wl_module with
    | some m => [WLEvent.dlcloseCall m]
    | none => [])

/-- Uppercase hexadecimal digit for `n < 16`. -/
def hexDigit (n : Nat) : Char :=
  if n < 10 then Char.ofNat (48 + n) else Char.ofNat (55 + n)

/-- Uppercase hexadecimal rendering of a natural number, as the `{:X}` format
specifier produces. -/
def hexStr (n : Nat) : String :=
  if _h : n < 16 then String.mk [hexDigit n]
  else hexStr (n / 16) ++ String.mk [hexDigit (n % 16)]
  termination_by n
  decreasing_by
    exact Nat.div_lt_self (by omega) (by omega)

/-- The message `Error::SetStringFmt` builds on `eglGetPlatformDisplay`
failure: the error code in decimal and in hexadecimal. -/
def fmtDisplayErr (err : Nat) : String :=
  "eglGetPlatformDisplay() for Wayland failed: " ++ Nat.repr err ++
    " (0x" ++ hexStr err ++ ")"

/-- The message `Error::SetStringFmt` builds on
`eglCreatePlatformWindowSurface` failure: the error code in decimal and in
hexadecimal. -/
def fmtSurfaceErr (err : Nat) : String :=
  "eglCreatePlatformWindowSurface() for Wayland failed: " ++ Nat.repr err ++
    " (0x" ++ hexStr err ++ ")"

/-- Modelled from the spec: `GLContextEGL::CheckExtension` (base-class code
not under `src/`) queries whether the platform layer advertises either of the
two given extension names and, per §4.1, "fails with a descriptive error"
when neither is present, writing to the error sink. -/
def checkExtension (env : WLEnv) (name1 name2 : String) : Bool × List WLEvent :=
  if env.hasWaylandExt then
    (true, [WLEvent.extensionQuery name1 name2])
  else
    (false, [WLEvent.extensionQuery name1 name2,
      WLEvent.setError (name1 ++ " or " ++ name2 ++ " is not supported")])

/-- Embeds `GLContextEGLWayland::GetPlatformDisplay`: check the two Wayland platform
extensions; if the check fails return `EGL_NO_DISPLAY` without calling
`eglGetPlatformDisplay`. Otherwise call `eglGetPlatformDisplay` with the
Wayland platform constant and the window info's display connection; if it
returns `EGL_NO_DISPLAY`, report `eglGetError` in decimal and hex via the
error sink. The display (null or not) is returned. -/
def getPlatformDisplay (env : WLEnv) (s : WLState) : Option Nat × List WLEvent :=
  match checkExtension env "EGL_KHR_platform_wayland" "EGL_EXT_platform_wayland" with
  | (false, t0) => (none, t0)
  | (true, t0) =>
      let t1 := t0 ++ [WLEvent.displayAcquire EGL_PLATFORM_WAYLAND_KHR
        s.m_wi.display_connection]
      match env.eglDisplayResult with
      | none => (none, t1 ++ [WLEvent.setError (fmtDisplayErr env.eglErrorCode)])
      | some d => (some d, t1)

/-- Embeds `GLContextEGLWayland::CreatePlatformSurface`: if a shim window exists,
destroy it and clear the field; create a new shim window from the window
info's handle and dimensions; if that fails, set a fixed error and return
`EGL_NO_SURFACE`; otherwise call `eglCreatePlatformWindowSurface` and, if it
fails, report `eglGetError` via the error sink, destroy the just-created shim
and clear the field. The surface (null or not) is returned. -/
def createPlatformSurface (env : WLEnv) (s : WLState) :
    Option Nat × WLState × List WLEvent :=
  let cleared : WLState × List WLEvent :=
    match s.m_wl_window with
    | some w => ({ s with m_wl_window := none }, [WLEvent.shimDestroyCall w])
    | none => (s, [])
  let s0 := cleared.1
  let t0 := cleared.2
  let res := env.shimCreateResult s.m_wi.window_handle s.m_wi.surface_width
    s.m_wi.surface_height
  let s1 : WLState := { s0 with m_wl_window := res }
  let t1 := t0 ++ [WLEvent.shimCreateCall s.m_wi.window_handle
    s.m_wi.surface_width s.m_wi.surface_height res]
  match res with
  | none =>
      (none, s1, t1 ++ [WLEvent.setError "wl_egl_window_create() failed"])
  | some w =>
      match env.eglSurfaceResult with
      | none =>
          (none, { s1 with m_wl_window := none },
            t1 ++ [WLEvent.surfaceAcquire w,
              WLEvent.setError (fmtSurfaceErr env.eglErrorCode),
              WLEvent.shimDestroyCall w])
      | some surf =>
          (some surf, s1, t1 ++ [WLEvent.surfaceAcquire w])

/-- Embeds `GLContextEGLWayland::ResizeSurface`: if a shim window exists, call the
resolved resize function with the new dimensions and a zero offset; always
call the base `GLContextEGL::ResizeSurface` afterwards. -/
def resizeSurface (s : WLState) (w h : Nat) : WLState × List WLEvent :=
  let t0 : List WLEvent :=
    match s.m_wl_window with
    | some win => [WLEvent.shimResizeCall win w h 0 0]
    | none => []
  (s, t0 ++ [WLEvent.baseResizeCall w h])

/-- Embeds `GLContextEGLWayland::Create`: allocate a fresh provider, run
`LoadModule`, then the base initialization (an opaque external collaborator,
`baseInit`); if either fails return null, the `unique_ptr` destructor running
on the partially constructed provider. On success log the platform name. -/
def create (wi : WindowInfo) (env : WLEnv)
    (baseInit : WLState → Bool × WLState × List WLEvent) :
    Option WLState × List WLEvent :=
  let s0 := initialState wi
  match loadModule env s0 with
  | (true, s1, t1) =>
      match baseInit s1 with
      | (true, s2, t2) =>
          (some s2, t1 ++ t2 ++ [WLEvent.consoleLog "EGL Platform: Wayland"])
      | (false, s2, t2) => (none, t1 ++ t2 ++ destructor s2)
  | (false, s1, t1) => (none, t1 ++ destructor s1)

/-- The state `CreateSharedContext` constructs before calling `LoadModule`:
a fresh provider for the new window info whose `m_display` and
`m_supports_surfaceless` are copied from the invoking provider. -/
def sharedInitState (parent : WLState) (wi : WindowInfo) : WLState :=
  { initialState wi with
    m_display := parent.m_display,
    m_supports_surfaceless := parent.m_supports_surfaceless }

/-- Embeds `GLContextEGLWayland::CreateSharedContext`: build the copied initial
state, run `LoadModule` on the new provider, then delegate to the base
collaborator's `CreateContextAndSurface` (opaque external `ccas`) with the
invoking provider's `m_version` and `m_context` and `make_current = false`;
if either step fails return null, the destructor running on the partially
constructed provider. -/
def createSharedContext (parent : WLState) (pversion pcontext : Nat)
    (wi : WindowInfo) (env : WLEnv)
    (ccas : Nat → Nat → Bool → WLState → Bool × WLState × List WLEvent) :
    Option WLState × List WLEvent :=
  let s0 := sharedInitState parent wi
  match loadModule env s0 with
  | (true, s1, t1) =>
      match ccas pversion pcontext false s1 with
      | (true, s2, t2) => (some s2, t1 ++ t2)
      | (false, s2, t2) => (none, t1 ++ t2 ++ destructor s2)
  | (false, s1, t1) => (none, t1 ++ destructor s1)

/-! ### Trace observables -/

/-- Whether an event is a write to the `Error` sink. -/
def isSetError : WLEvent → Bool
  | WLEvent.setError _ => true
  | _ => false

/-- Whether an event is a `Console.Error` line. -/
def isConsoleError : WLEvent → Bool
  | WLEvent.consoleError _ => true
  | _ => false

/-- Whether an event is a `wl_egl_window_create` call. -/
def isShimCreate : WLEvent → Bool
  | WLEvent.shimCreateCall _ _ _ _ => true
  | _ => false

/-- Whether an event is an `eglCreatePlatformWindowSurface` call. -/
def isSurfaceAcquire : WLEvent → Bool
  | WLEvent.surfaceAcquire _ => true
  | _ => false

/-- Whether an event is an `eglGetPlatformDisplay` call. -/
def isDisplayAcquire : WLEvent → Bool
  | WLEvent.displayAcquire _ _ => true
  | _ => false

/-- Returns `true` when some event of the trace satisfies `p`. -/
def hasEvent (p : WLEvent → Bool) (t : List WLEvent) : Bool := t.any p

/-- Net change an event makes to the number of live shim windows: a
successful `wl_egl_window_create` adds one, `wl_egl_window_destroy` removes
one. -/
def shimDelta : WLEvent → Int
  | WLEvent.shimCreateCall _ _ _ (some _) => 1
  | WLEvent.shimDestroyCall _ => -1
  | _ => 0

/-- Number of shim windows alive after a trace (relative to its start). -/
def aliveShims (t : List WLEvent) : Int := (t.map shimDelta).sum

/-- Number of shim windows a state holds (0 or 1, since the provider stores
a single optional handle). -/
def shimCount (s : WLState) : Int := if s.m_wl_window.isSome then 1 else 0

/-- Run a sequence of `CreatePlatformSurface` calls (the environment list
supplies each call's external results), concatenating the traces. -/
def runSurfaces : List WLEnv → WLState → WLState × List WLEvent
  | [], s => (s, [])
  | e :: es, s =>
      let r := createPlatformSurface e s
      let rest := runSurfaces es r.2.1
      (rest.1, r.2.2 ++ rest.2)

theorem aliveShims_nil : aliveShims [] = 0 := rfl

theorem aliveShims_cons (e : WLEvent) (t : List WLEvent) :
    aliveShims (e :: t) = shimDelta e + aliveShims t := by
  simp [aliveShims]

theorem aliveShims_append (t1 t2 : List WLEvent) :
    aliveShims (t1 ++ t2) = aliveShims t1 + aliveShims t2 := by
  simp [aliveShims]

theorem prefix_of_cons {α : Type} {p l : List α} {a : α} (h : p <+: a :: l) :
    p = [] ∨ ∃ q, p = a :: q ∧ q <+: l := by
  cases p with
  | nil => exact Or.inl rfl
  | cons b q =>
      obtain ⟨r, hr⟩ := h
      simp only [List.cons_append] at hr
      injection hr with h1 h2
      subst h1
      exact Or.inr ⟨q, rfl, ⟨r, h2⟩⟩

theorem prefix_append_split {α : Type} {p l1 l2 : List α} (h : p <+: l1 ++ l2) :
    p <+: l1 ∨ ∃ q, p = l1 ++ q ∧ q <+: l2 := by
  induction l1 generalizing p with
  | nil => exact Or.inr ⟨p, rfl, by simpa using h⟩
  | cons a l ih =>
      rcases prefix_of_cons (by simpa using h) with h0 | ⟨q, rfl, hq⟩
      · subst h0
        exact Or.inl ⟨a :: l, rfl⟩
      · rcases ih hq with h1 | ⟨r, rfl, hr⟩
        · exact Or.inl (List.cons_prefix_cons.mpr ⟨rfl, h1⟩)
        · exact Or.inr ⟨r, rfl, hr⟩

/-- Boolean check that every running prefix sum of shim-count changes along
the trace, starting from `acc`, stays at most 1. -/
def prefixesOK (acc : Int) : List WLEvent → Bool
  | [] => true
  | e :: t => (decide (acc + shimDelta e ≤ 1)) && prefixesOK (acc + shimDelta e) t

theorem prefixesOK_sound :
    ∀ (t : List WLEvent) (acc : Int), acc ≤ 1 → prefixesOK acc t = true →
      ∀ p, p <+: t → acc + aliveShims p ≤ 1 := by
  intro t
  induction t with
  | nil =>
      intro acc hacc _ p hp
      rw [List.prefix_nil] at hp
      subst hp
      simpa [aliveShims_nil] using hacc
  | cons e t ih =>
      intro acc hacc hok p hp
      simp only [prefixesOK, Bool.and_eq_true, decide_eq_true_eq] at hok
      rcases prefix_of_cons hp with rfl | ⟨q, rfl, hq⟩
      · simpa [aliveShims_nil] using hacc
      · rw [aliveShims_cons]
        have h2 := ih (acc + shimDelta e) hok.1 hok.2 q hq
        omega

theorem shimCount_nonneg (s : WLState) : 0 ≤ shimCount s := by
  unfold shimCount
  split <;> omega

theorem shimCount_le_one (s : WLState) : shimCount s ≤ 1 := by
  unfold shimCount
  split <;> omega

theorem cps_prefixesOK (env : WLEnv) (s : WLState) :
    prefixesOK (shimCount s) ((createPlatformSurface env s).2.2) = true := by
  rcases hw : s.m_wl_window with _ | ow <;>
    rcases hres : env.shimCreateResult s.m_wi.window_handle s.m_wi.surface_width
      s.m_wi.surface_height with _ | w <;>
    rcases hegl : env.eglSurfaceResult with _ | sf <;>
    simp [createPlatformSurface, prefixesOK, shimDelta, shimCount, hw, hres, hegl]

theorem cps_prefix_bound (env : WLEnv) (s : WLState) :
    ∀ p, p <+: (createPlatformSurface env s).2.2 → shimCount s + aliveShims p ≤ 1 :=
  prefixesOK_sound _ _ (shimCount_le_one s) (cps_prefixesOK env s)

theorem cps_alive_total (env : WLEnv) (s : WLState) :
    shimCount s + aliveShims ((createPlatformSurface env s).2.2) =
      shimCount ((createPlatformSurface env s).2.1) := by
  rcases hw : s.m_wl_window with _ | ow <;>
    rcases hres : env.shimCreateResult s.m_wi.window_handle s.m_wi.surface_width
      s.m_wi.surface_height with _ | w <;>
    rcases hegl : env.eglSurfaceResult with _ | sf <;>
    simp [createPlatformSurface, aliveShims, shimDelta, shimCount, hw, hres, hegl]

theorem runSurfaces_prefix_bound :
    ∀ (envs : List WLEnv) (s : WLState) (p), p <+: (runSurfaces envs s).2 →
      shimCount s + aliveShims p ≤ 1 := by
  intro envs
  induction envs with
  | nil =>
      intro s p hp
      rw [show (runSurfaces [] s).2 = [] from rfl, List.prefix_nil] at hp
      subst hp
      have := shimCount_le_one s
      simpa [aliveShims_nil] using this
  | cons e es ih =>
      intro s p hp
      rw [show (runSurfaces (e :: es) s).2 =
        (createPlatformSurface e s).2.2 ++
          (runSurfaces es ((createPlatformSurface e s).2.1)).2 from rfl] at hp
      rcases prefix_append_split hp with h1 | ⟨q, rfl, hq⟩
      · exact cps_prefix_bound e s p h1
      · rw [aliveShims_append]
        have h2 := ih ((createPlatformSurface e s).2.1) q hq
        have h3 := cps_alive_total e s
        omega

/-! ### Reachable provider states -/

/-- Holds when `LoadModule` succeeded on this provider: the library handle and all three
resolved function pointers are non-null. -/
def loadedOk (s : WLState) : Prop :=
  s.m_wl_module.isSome = true ∧ s.m_wl_egl_window_create.isSome = true ∧
    s.m_wl_egl_window_destroy.isSome = true ∧ s.m_wl_egl_window_resize.isSome = true

instance (s : WLState) : Decidable (loadedOk s) := by
  unfold loadedOk
  infer_instance

/-- The shim-handle safety property: whenever the shim window handle is
non-null, the library handle and the three resolved function pointers are all
non-null. -/
def shimSafe (s : WLState) : Prop :=
  s.m_wl_window.isSome = true → loadedOk s

instance (s : WLState) : Decidable (shimSafe s) := by
  unfold shimSafe
  infer_instance

/-- States a provider can be in during its life: freshly constructed (by
`Create` or `CreateSharedContext`), after the single `LoadModule` call made on
a fresh provider, after base-collaborator steps (which touch only the
base-class fields), and after `CreatePlatformSurface` or `ResizeSurface`
calls, which the base collaborator performs only once `LoadModule` has
succeeded (`Create`/`CreateSharedContext` short-circuit otherwise). -/
inductive Reachable : WLState → Prop
  | fresh (wi : WindowInfo) : Reachable (initialState wi)
  | freshShared (parent : WLState) (wi : WindowInfo) :
      Reachable (sharedInitState parent wi)
  | load (env : WLEnv) (s : WLState) : Reachable s → s.m_wl_window = none →
      Reachable ((loadModule env s).2.1)
  | baseStep (s : WLState) (d : Option Nat) (f : Bool) (wi : WindowInfo) :
      Reachable s →
      Reachable { s with m_display := d, m_supports_surfaceless := f, m_wi := wi }
  | surface (env : WLEnv) (s : WLState) : Reachable s → loadedOk s →
      Reachable ((createPlatformSurface env s).2.1)
  | resize (s : WLState) (w h : Nat) : Reachable s → loadedOk s →
      Reachable ((resizeSurface s w h).1)

theorem loadModule_window (env : WLEnv) (s : WLState) :
    ((loadModule env s).2.1).m_wl_window = s.m_wl_window := by
  rcases hdl : env.dlopenResult with _ | m
  · simp [loadModule, hdl]
  · simp only [loadModule, hdl]
    split <;> simp

theorem cps_pointers (env : WLEnv) (s : WLState) :
    ((createPlatformSurface env s).2.1).m_wl_module = s.m_wl_module ∧
    ((createPlatformSurface env s).2.1).m_wl_egl_window_create =
      s.m_wl_egl_window_create ∧
    ((createPlatformSurface env s).2.1).m_wl_egl_window_destroy =
      s.m_wl_egl_window_destroy ∧
    ((createPlatformSurface env s).2.1).m_wl_egl_window_resize =
      s.m_wl_egl_window_resize := by
  rcases hw : s.m_wl_window with _ | ow <;>
    rcases hres : env.shimCreateResult s.m_wi.window_handle s.m_wi.surface_width
      s.m_wi.surface_height with _ | w <;>
    rcases hegl : env.eglSurfaceResult with _ | sf <;>
    simp [createPlatformSurface, hw, hres, hegl]

theorem reachable_shimSafe (s : WLState) (h : Reachable s) : shimSafe s := by
  induction h with
  | fresh wi => simp [shimSafe, initialState]
  | freshShared parent wi => simp [shimSafe, sharedInitState, initialState]
  | load env s hr hw ih =>
      intro hsome
      rw [loadModule_window, hw] at hsome
      simp at hsome
  | baseStep s d f wi hr ih =>
      intro hsome
      have h2 := ih hsome
      unfold loadedOk at h2 ⊢
      simpa using h2
  | surface env s hr hok ih =>
      intro _
      obtain ⟨p1, p2, p3, p4⟩ := cps_pointers env s
      unfold loadedOk at hok ⊢
      rw [p1, p2, p3, p4]
      exact hok
  | resize s w h hr hok ih =>
      intro _
      exact hok

/-! ### Concrete fixtures for witnesses -/

/-- A concrete window info. -/
def wiA : WindowInfo where
  window_handle := 11
  surface_width := 640
  surface_height := 480
  display_connection := 3

/-- An environment in which every external call succeeds. -/
def envGood : WLEnv where
  dlopenResult := some 100
  symWindowCreate := some 101
  symWindowDestroy := some 102
  symWindowResize := some 103
  shimCreateResult := fun _ _ _ => some 7
  eglSurfaceResult := some 8
  eglDisplayResult := some 9
  eglErrorCode := 0x3001
  hasWaylandExt := true

/-- As `envGood` but `dlopen` fails. -/
def envNoLib : WLEnv := { envGood with dlopenResult := none }

/-- As `envGood` but the library lacks the `wl_egl_window_resize` symbol. -/
def envNoSym : WLEnv := { envGood with symWindowResize := none }

/-- As `envGood` but `eglCreatePlatformWindowSurface` fails. -/
def envNoSurface : WLEnv := { envGood with eglSurfaceResult := none }

/-- As `envGood` but neither Wayland platform extension is advertised. -/
def envNoExt : WLEnv := { envGood with hasWaylandExt := false }

/-- As `envGood` but `eglGetPlatformDisplay` fails. -/
def envNoDisplay : WLEnv := { envGood with eglDisplayResult := none }

/-- A provider state holding both a live shim window and a live library. -/
def sBoth : WLState :=
  { initialState wiA with
    m_wl_module := some 100,
    m_wl_egl_window_create := some 101,
    m_wl_egl_window_destroy := some 102,
    m_wl_egl_window_resize := some 103,
    m_wl_window := some 7 }

/-- A provider state holding only a live library handle. -/
def sOnlyModule : WLState := { sBoth with m_wl_window := none }

/-- A provider state holding only a live shim window handle. -/
def sOnlyWindow : WLState := { sBoth with m_wl_module := none }

/-- A trivial base-collaborator stand-in that succeeds without side effects. -/
def biTrivial : WLState → Bool × WLState × List WLEvent := fun s => (true, s, [])

/-! ### Helper lemmas about `loadModule` and `create` -/

theorem loadModule_module (env : WLEnv) (s : WLState) :
    ((loadModule env s).2.1).m_wl_module = env.dlopenResult := by
  rcases hdl : env.dlopenResult with _ | m
  · simp [loadModule, hdl]
  · simp only [loadModule, hdl]
    split <;> simp [hdl]

theorem loadModule_base (env : WLEnv) (s : WLState) :
    ((loadModule env s).2.1).m_display = s.m_display ∧
    ((loadModule env s).2.1).m_supports_surfaceless = s.m_supports_surfaceless := by
  rcases hdl : env.dlopenResult with _ | m
  · simp [loadModule, hdl]
  · simp only [loadModule, hdl]
    split <;> simp

theorem loadModule_no_display_event (env : WLEnv) (s : WLState) :
    hasEvent isDisplayAcquire (loadModule env s).2.2 = false := by
  rcases hdl : env.dlopenResult with _ | m
  · simp [loadModule, hdl, hasEvent, isDisplayAcquire]
  · simp only [loadModule, hdl]
    split <;> simp [hasEvent, isDisplayAcquire]

theorem create_load_fail_aux (wi : WindowInfo) (env : WLEnv)
    (baseInit : WLState → Bool × WLState × List WLEvent)
    (hload : (loadModule env (initialState wi)).1 = false) :
    (create wi env baseInit).1 = none ∧
    hasEvent isShimCreate (create wi env baseInit).2 = false ∧
    hasEvent isSurfaceAcquire (create wi env baseInit).2 = false ∧
    ((loadModule env (initialState wi)).2.1).m_wl_window = none := by
  rcases hdl : env.dlopenResult with _ | m
  · simp [create, loadModule, hdl, destructor, initialState, hasEvent,
      isShimCreate, isSurfaceAcquire]
  · by_cases hsym : (env.symWindowCreate.isNone || env.symWindowDestroy.isNone ||
        env.symWindowResize.isNone) = true
    · simp [create, loadModule, hdl, hsym, destructor, initialState, hasEvent,
        isShimCreate, isSurfaceAcquire]
    · exfalso
      simp only [loadModule, hdl] at hload
      rw [if_neg (by simp_all)] at hload
      simp at hload

/-! ### The claims -/

/-- C1: on destruction, if both a live shim window handle and a live library
handle exist, the shim is destroyed (via the resolved destroy pointer)
strictly before the library is closed; if only one exists, only that one is
released; and no release event is ever emitted for a null handle. -/
theorem claim_C1_destructor_order (s : WLState) :
    (∀ w m, s.m_wl_window = some w → s.m_wl_module = some m →
      destructor s = [WLEvent.shimDestroyCall w, WLEvent.dlcloseCall m]) ∧
    (∀ m, s.m_wl_window = none → s.m_wl_module = some m →
      destructor s = [WLEvent.dlcloseCall m]) ∧
    (∀ w, s.m_wl_window = some w → s.m_wl_module = none →
      destructor s = [WLEvent.shimDestroyCall w]) ∧
    (s.m_wl_window = none → ∀ w, WLEvent.shimDestroyCall w ∉ destructor s) ∧
    (s.m_wl_module = none → ∀ m, WLEvent.dlcloseCall m ∉ destructor s) := by
  refine ⟨?_, ?_, ?_, ?_, ?_⟩
  · intro w m hw hm
    simp [destructor, hw, hm]
  · intro m hw hm
    simp [destructor, hw, hm]
  · intro w hw hm
    simp [destructor, hw, hm]
  · intro hw w
    rcases hm : s.m_wl_module with _ | m <;> simp [destructor, hw, hm]
  · intro hm w
    rcases hw : s.m_wl_window with _ | w2 <;> simp [destructor, hw, hm]

theorem claim_C1_witness :
    destructor sBoth = [WLEvent.shimDestroyCall 7, WLEvent.dlcloseCall 100] ∧
    destructor sOnlyModule = [WLEvent.dlcloseCall 100] ∧
    destructor sOnlyWindow = [WLEvent.shimDestroyCall 7] ∧
    WLEvent.shimDestroyCall 7 ∉ destructor sOnlyModule :=
  ⟨(claim_C1_destructor_order sBoth).1 7 100 rfl rfl,
   (claim_C1_destructor_order sOnlyModule).2.1 100 rfl rfl,
   (claim_C1_destructor_order sOnlyWindow).2.2.1 7 rfl rfl,
   (claim_C1_destructor_order sOnlyModule).2.2.2.1 rfl 7⟩

/-- C2: over any sequence of `CreatePlatformSurface` calls on a provider that
starts without a shim window, every prefix of the emitted trace has at most
one live shim window; and a call entering with a live shim window first
destroys it and then (the very next external call) creates the new one, the
stored handle having been cleared in between. -/
theorem claim_C2_at_most_one_shim (s : WLState) (envs : List WLEnv)
    (env : WLEnv) (w : Nat) :
    (s.m_wl_window = none →
      ∀ p, p <+: (runSurfaces envs s).2 → aliveShims p ≤ 1) ∧
    (s.m_wl_window = some w →
      ((createPlatformSurface env s).2.2).take 2 =
        [WLEvent.shimDestroyCall w,
         WLEvent.shimCreateCall s.m_wi.window_handle s.m_wi.surface_width
           s.m_wi.surface_height
           (env.shimCreateResult s.m_wi.window_handle s.m_wi.surface_width
             s.m_wi.surface_height)]) := by
  constructor
  · intro h p hp
    have hb := runSurfaces_prefix_bound envs s p hp
    have hc : shimCount s = 0 := by simp [shimCount, h]
    omega
  · intro h
    rcases hres : env.shimCreateResult s.m_wi.window_handle s.m_wi.surface_width
      s.m_wi.surface_height with _ | w2 <;>
      rcases hegl : env.eglSurfaceResult with _ | sf <;>
      simp [createPlatformSurface, h, hres, hegl]

theorem claim_C2_witness :
    aliveShims (runSurfaces [envGood, envNoSurface, envGood]
      (initialState wiA)).2 ≤ 1 ∧
    ((createPlatformSurface envGood sBoth).2.2).take 2 =
      [WLEvent.shimDestroyCall 7, WLEvent.shimCreateCall 11 640 480 (some 7)] :=
  ⟨(claim_C2_at_most_one_shim (initialState wiA)
      [envGood, envNoSurface, envGood] envGood 0).1 rfl _ (List.prefix_refl _),
   (claim_C2_at_most_one_shim sBoth [] envGood 7).2 rfl⟩

/-- C7: `ResizeSurface(w, h)` invokes the shim resize with exactly
`(w, h, 0, 0)` when a shim window exists, and the base bookkeeping call is
made afterwards in every case. -/
theorem claim_C7_resize (s : WLState) (nw nh win : Nat) :
    (s.m_wl_window = some win →
      (resizeSurface s nw nh).2 =
        [WLEvent.shimResizeCall win nw nh 0 0, WLEvent.baseResizeCall nw nh]) ∧
    (s.m_wl_window = none →
      (resizeSurface s nw nh).2 = [WLEvent.baseResizeCall nw nh]) ∧
    WLEvent.baseResizeCall nw nh ∈ (resizeSurface s nw nh).2 := by
  refine ⟨?_, ?_, ?_⟩
  · intro hw
    simp [resizeSurface, hw]
  · intro hw
    simp [resizeSurface, hw]
  · rcases hw : s.m_wl_window with _ | win2 <;> simp [resizeSurface, hw]

theorem claim_C7_witness :
    (resizeSurface sBoth 800 600).2 =
      [WLEvent.shimResizeCall 7 800 600 0 0, WLEvent.baseResizeCall 800 600] ∧
    (resizeSurface sOnlyModule 800 600).2 = [WLEvent.baseResizeCall 800 600] :=
  ⟨(claim_C7_resize sBoth 800 600 7).1 rfl,
   (claim_C7_resize sOnlyModule 800 600 0).2.1 rfl⟩

/-- C3: when the shim window is created successfully but the EGL window
surface call fails, `CreatePlatformSurface` returns no surface, the
just-created shim is destroyed and the stored handle is cleared, and the EGL
error code is written to the error sink. -/
theorem claim_C3_surface_rollback (env : WLEnv) (s : WLState) (w : Nat)
    (hcreate : env.shimCreateResult s.m_wi.window_handle s.m_wi.surface_width
      s.m_wi.surface_height = some w)
    (hsurf : env.eglSurfaceResult = none) :
    (createPlatformSurface env s).1 = none ∧
    ((createPlatformSurface env s).2.1).m_wl_window = none ∧
    WLEvent.setError (fmtSurfaceErr env.eglErrorCode) ∈
      (createPlatformSurface env s).2.2 ∧
    WLEvent.shimDestroyCall w ∈ (createPlatformSurface env s).2.2 := by
  rcases hw : s.m_wl_window with _ | ow <;>
    simp [createPlatformSurface, hw, hcreate, hsurf]

theorem claim_C3_witness :
    (createPlatformSurface envNoSurface (initialState wiA)).1 = none ∧
    ((createPlatformSurface envNoSurface (initialState wiA)).2.1).m_wl_window
      = none ∧
    WLEvent.setError (fmtSurfaceErr 0x3001) ∈
      (createPlatformSurface envNoSurface (initialState wiA)).2.2 ∧
    WLEvent.shimDestroyCall 7 ∈
      (createPlatformSurface envNoSurface (initialState wiA)).2.2 :=
  claim_C3_surface_rollback envNoSurface (initialState wiA) 7 rfl rfl

/-- C4: if neither Wayland platform extension is advertised,
`GetPlatformDisplay` returns no display without ever calling
`eglGetPlatformDisplay`; if the check passes but acquisition fails, the EGL
error code is written to the error sink, and the message renders the code in
both decimal and hexadecimal. -/
theorem claim_C4_getPlatformDisplay (env : WLEnv) (s : WLState) :
    (env.hasWaylandExt = false →
      (getPlatformDisplay env s).1 = none ∧
      hasEvent isDisplayAcquire (getPlatformDisplay env s).2 = false) ∧
    (env.hasWaylandExt = true → env.eglDisplayResult = none →
      (getPlatformDisplay env s).1 = none ∧
      WLEvent.setError (fmtDisplayErr env.eglErrorCode) ∈
        (getPlatformDisplay env s).2) ∧
    fmtDisplayErr env.eglErrorCode =
      "eglGetPlatformDisplay() for Wayland failed: " ++
        Nat.repr env.eglErrorCode ++ " (0x" ++ hexStr env.eglErrorCode ++ ")" := by
  refine ⟨?_, ?_, rfl⟩
  · intro hext
    simp [getPlatformDisplay, checkExtension, hext, hasEvent, isDisplayAcquire]
  · intro hext hdpy
    simp [getPlatformDisplay, checkExtension, hext, hdpy]

theorem claim_C4_witness :
    ((getPlatformDisplay envNoExt (initialState wiA)).1 = none ∧
      hasEvent isDisplayAcquire
        (getPlatformDisplay envNoExt (initialState wiA)).2 = false) ∧
    ((getPlatformDisplay envNoDisplay (initialState wiA)).1 = none ∧
      WLEvent.setError (fmtDisplayErr 0x3001) ∈
        (getPlatformDisplay envNoDisplay (initialState wiA)).2) :=
  ⟨(claim_C4_getPlatformDisplay envNoExt (initialState wiA)).1 rfl,
   (claim_C4_getPlatformDisplay envNoDisplay (initialState wiA)).2.1 rfl rfl⟩

/-- C5: if `LoadModule` fails, `Create` returns failure and the provider
never calls `wl_egl_window_create` nor `eglCreatePlatformWindowSurface`, and
its shim window handle stays null. -/
theorem claim_C5_create_load_failure (wi : WindowInfo) (env : WLEnv)
    (baseInit : WLState → Bool × WLState × List WLEvent)
    (hload : (loadModule env (initialState wi)).1 = false) :
    (create wi env baseInit).1 = none ∧
    hasEvent isShimCreate (create wi env baseInit).2 = false ∧
    hasEvent isSurfaceAcquire (create wi env baseInit).2 = false ∧
    ((loadModule env (initialState wi)).2.1).m_wl_window = none :=
  create_load_fail_aux wi env baseInit hload

theorem claim_C5_witness :
    (create wiA envNoLib biTrivial).1 = none ∧
    hasEvent isShimCreate (create wiA envNoLib biTrivial).2 = false ∧
    hasEvent isSurfaceAcquire (create wiA envNoLib biTrivial).2 = false ∧
    ((loadModule envNoLib (initialState wiA)).2.1).m_wl_window = none :=
  claim_C5_create_load_failure wiA envNoLib biTrivial rfl

/-- C6: `LoadModule` succeeds exactly when the library opens and all three
symbols resolve; when the library opens but a symbol is missing it fails with
a console message while the library handle stays stored (so the destructor
closes it); and a provider whose `LoadModule` failed yields a failed
`Create`. -/
theorem claim_C6_loadModule (env : WLEnv) (s : WLState) (m : Nat)
    (wi : WindowInfo) :
    ((loadModule env s).1 = true ↔
      env.dlopenResult.isSome = true ∧ env.symWindowCreate.isSome = true ∧
      env.symWindowDestroy.isSome = true ∧ env.symWindowResize.isSome = true) ∧
    (env.dlopenResult = some m → (loadModule env s).1 = false →
      ((loadModule env s).2.1).m_wl_module = some m ∧
      WLEvent.consoleError ("Failed to load one or more functions from " ++
        WAYLAND_EGL_MODNAME ++ ".") ∈ (loadModule env s).2.2 ∧
      WLEvent.dlcloseCall m ∈ destructor ((loadModule env s).2.1)) ∧
    ((loadModule env (initialState wi)).1 = false →
      ∀ bi, (create wi env bi).1 = none) := by
  refine ⟨?_, ?_, ?_⟩
  · rcases hdl : env.dlopenResult with _ | m2 <;>
      rcases hc : env.symWindowCreate with _ | fc <;>
      rcases hd : env.symWindowDestroy with _ | fd <;>
      rcases hr2 : env.symWindowResize with _ | fr <;>
      simp [loadModule, hdl, hc, hd, hr2]
  · intro hdl hfail
    have hwin : ((loadModule env s).2.1).m_wl_window = s.m_wl_window :=
      loadModule_window env s
    rcases hc : env.symWindowCreate with _ | fc <;>
      rcases hd : env.symWindowDestroy with _ | fd <;>
      rcases hr2 : env.symWindowResize with _ | fr <;>
      rcases hw : s.m_wl_window with _ | ow <;>
      simp_all [loadModule, destructor, hdl]
  · intro hload bi
    exact (create_load_fail_aux wi env bi hload).1

theorem claim_C6_witness :
    (loadModule envGood sOnlyModule).1 = true ∧
    ((loadModule envNoSym (initialState wiA)).2.1).m_wl_module = some 100 ∧
    WLEvent.consoleError ("Failed to load one or more functions from " ++
      WAYLAND_EGL_MODNAME ++ ".") ∈ (loadModule envNoSym (initialState wiA)).2.2 ∧
    WLEvent.dlcloseCall 100 ∈
      destructor ((loadModule envNoSym (initialState wiA)).2.1) ∧
    (create wiA envNoSym biTrivial).1 = none :=
  ⟨((claim_C6_loadModule envGood sOnlyModule 100 wiA).1).mpr
      ⟨rfl, rfl, rfl, rfl⟩,
   ((claim_C6_loadModule envNoSym (initialState wiA) 100 wiA).2.1 rfl rfl).1,
   ((claim_C6_loadModule envNoSym (initialState wiA) 100 wiA).2.1 rfl rfl).2.1,
   ((claim_C6_loadModule envNoSym (initialState wiA) 100 wiA).2.1 rfl rfl).2.2,
   (claim_C6_loadModule envNoSym (initialState wiA) 100 wiA).2.2 rfl biTrivial⟩

/-- A base-collaborator `CreateContextAndSurface` stand-in that succeeds
without side effects. -/
def ccasGood : Nat → Nat → Bool → WLState → Bool × WLState × List WLEvent :=
  fun _ _ _ s => (true, s, [])

/-- C8: `CreateSharedContext` builds a provider that copies the invoking
provider's display handle and surfaceless flag before any other step, loads
its own library handle from its own `dlopen` call, performs no display
negotiation of its own, and delegates to the base collaborator's
`CreateContextAndSurface` with the existing version and context and
`make_current = false`; failure of `LoadModule` or of the delegation yields
failure. -/
theorem claim_C8_sharedContext (parent : WLState) (pv pc : Nat)
    (wi : WindowInfo) (env : WLEnv)
    (ccas : Nat → Nat → Bool → WLState → Bool × WLState × List WLEvent) :
    ((sharedInitState parent wi).m_display = parent.m_display ∧
      (sharedInitState parent wi).m_supports_surfaceless =
        parent.m_supports_surfaceless) ∧
    (((loadModule env (sharedInitState parent wi)).2.1).m_display =
        parent.m_display ∧
      ((loadModule env (sharedInitState parent wi)).2.1).m_supports_surfaceless =
        parent.m_supports_surfaceless ∧
      ((loadModule env (sharedInitState parent wi)).2.1).m_wl_module =
        env.dlopenResult) ∧
    hasEvent isDisplayAcquire (loadModule env (sharedInitState parent wi)).2.2 =
      false ∧
    ((loadModule env (sharedInitState parent wi)).1 = false →
      (createSharedContext parent pv pc wi env ccas).1 = none) ∧
    ((loadModule env (sharedInitState parent wi)).1 = true →
      ((ccas pv pc false ((loadModule env (sharedInitState parent wi)).2.1)).1 =
          false →
        (createSharedContext parent pv pc wi env ccas).1 = none) ∧
      ((ccas pv pc false ((loadModule env (sharedInitState parent wi)).2.1)).1 =
          true →
        (createSharedContext parent pv pc wi env ccas).1 =
          some ((ccas pv pc false
            ((loadModule env (sharedInitState parent wi)).2.1)).2.1))) := by
  refine ⟨⟨rfl, rfl⟩,
    ⟨(loadModule_base env (sharedInitState parent wi)).1,
     (loadModule_base env (sharedInitState parent wi)).2,
     loadModule_module env (sharedInitState parent wi)⟩,
    loadModule_no_display_event env (sharedInitState parent wi), ?_, ?_⟩
  · intro hload
    rcases hL : loadModule env (sharedInitState parent wi) with ⟨ok, s1, t1⟩
    rw [hL] at hload
    cases ok
    · simp [createSharedContext, hL]
    · simp at hload
  · intro hok
    rcases hL : loadModule env (sharedInitState parent wi) with ⟨ok, s1, t1⟩
    cases ok
    · rw [hL] at hok
      simp at hok
    · rcases hC : ccas pv pc false s1 with ⟨ok2, s2, t2⟩
      cases ok2
      · constructor
        · intro _
          simp [createSharedContext, hL, hC]
        · intro hct
          simp at hct
      · constructor
        · intro hcf
          simp at hcf
        · intro _
          simp [createSharedContext, hL, hC]

theorem claim_C8_witness :
    (sharedInitState sBoth wiA).m_display = sBoth.m_display ∧
    ((loadModule envGood (sharedInitState sBoth wiA)).2.1).m_wl_module =
      some 100 ∧
    (createSharedContext sBoth 2 5 wiA envGood ccasGood).1 =
      some ((ccasGood 2 5 false
        ((loadModule envGood (sharedInitState sBoth wiA)).2.1)).2.1) :=
  ⟨(claim_C8_sharedContext sBoth 2 5 wiA envGood ccasGood).1.1,
   ((claim_C8_sharedContext sBoth 2 5 wiA envGood ccasGood).2.1.2.2).trans rfl,
   ((claim_C8_sharedContext sBoth 2 5 wiA envGood ccasGood).2.2.2.2 rfl).2 rfl⟩

/-- C9 counterexample: when `dlopen` fails, `LoadModule` (and hence `Create`)
fails, yet no message is ever written to the `Error` sink — the report goes
to the console log only, so the claim that every failure category is reported
via the error sink is false for the library-unavailable category. -/
theorem claim_C9_counterexample :
    (loadModule envNoLib (initialState wiA)).1 = false ∧
    hasEvent isSetError (loadModule envNoLib (initialState wiA)).2.2 = false ∧
    (create wiA envNoLib biTrivial).1 = none ∧
    hasEvent isSetError (create wiA envNoLib biTrivial).2 = false :=
  ⟨rfl, rfl, rfl, rfl⟩

/-- C9 amended: every failure writes a descriptive message before returning —
library-unavailable failures are reported via the console log sink, while
extension-unsupported, platform-call and shim-creation failures are reported
via the error sink; no failure is silent. -/
theorem claim_C9_error_reporting (env : WLEnv) (s : WLState) :
    ((loadModule env s).1 = false →
      hasEvent isConsoleError (loadModule env s).2.2 = true) ∧
    ((getPlatformDisplay env s).1 = none →
      hasEvent isSetError (getPlatformDisplay env s).2 = true) ∧
    ((createPlatformSurface env s).1 = none →
      hasEvent isSetError (createPlatformSurface env s).2.2 = true) := by
  refine ⟨?_, ?_, ?_⟩
  · rcases hdl : env.dlopenResult with _ | m
    · intro _
      simp [loadModule, hdl, hasEvent, isConsoleError]
    · simp only [loadModule, hdl]
      split
      · intro _
        simp [hasEvent, isConsoleError]
      · intro hfalse
        simp at hfalse
  · rcases hext : env.hasWaylandExt
    · intro _
      simp [getPlatformDisplay, checkExtension, hext, hasEvent, isSetError]
    · rcases hdpy : env.eglDisplayResult with _ | d
      · intro _
        simp [getPlatformDisplay, checkExtension, hext, hdpy, hasEvent, isSetError]
      · intro hnone
        simp [getPlatformDisplay, checkExtension, hext, hdpy] at hnone
  · rcases hw : s.m_wl_window with _ | ow <;>
      rcases hres : env.shimCreateResult s.m_wi.window_handle s.m_wi.surface_width
        s.m_wi.surface_height with _ | w <;>
      rcases hegl : env.eglSurfaceResult with _ | sf <;>
      intro hnone <;>
      simp_all [createPlatformSurface, hasEvent, isSetError]

theorem claim_C9_witness :
    hasEvent isConsoleError (loadModule envNoLib (initialState wiA)).2.2 =
      true ∧
    hasEvent isSetError (getPlatformDisplay envNoExt (initialState wiA)).2 =
      true ∧
    hasEvent isSetError (getPlatformDisplay envNoDisplay (initialState wiA)).2 =
      true ∧
    hasEvent isSetError
      (createPlatformSurface envNoSurface (initialState wiA)).2.2 = true :=
  ⟨(claim_C9_error_reporting envNoLib (initialState wiA)).1 rfl,
   (claim_C9_error_reporting envNoExt (initialState wiA)).2.1 rfl,
   (claim_C9_error_reporting envNoDisplay (initialState wiA)).2.1 rfl,
   (claim_C9_error_reporting envNoSurface (initialState wiA)).2.2 rfl⟩

/-- C10: in every reachable provider state, a non-null shim window handle
implies a non-null library handle and three non-null resolved function
pointers, so the destructor's destroy call and `ResizeSurface`'s resize call
never go through a null function pointer. -/
theorem claim_C10_invariant (s : WLState) (h : Reachable s) : shimSafe s :=
  reachable_shimSafe s h

theorem claim_C10_witness :
    shimSafe ((createPlatformSurface envGood
      ((loadModule envGood (initialState wiA)).2.1)).2.1) ∧
    ((createPlatformSurface envGood
      ((loadModule envGood (initialState wiA)).2.1)).2.1).m_wl_window =
      some 7 :=
  ⟨claim_C10_invariant _
      (Reachable.surface envGood _
        (Reachable.load envGood _ (Reachable.fresh wiA) rfl)
        ⟨rfl, rfl, rfl, rfl⟩),
   rfl⟩

end GLWayland
